import Mathlib

/-
Shallow embedding of the reconciliation / market-data core of the
Binance tracker (src/binance_tracker/core/api_client.py and
src/binance_tracker/core/calculator.py).

Python floats are modelled as rationals, exchange-client calls as pure
functions packaged in an `Env`, the mutable fields of `BinanceApiClient`
as an explicit `State`, and a Python exception as a `PyErr`: either a
`BinanceAPIException` carrying its numeric error code, or `.exc` for any
other exception class (transport errors, `TypeError`, `ZeroDivisionError`,
and so on - the source distinguishes these via its `except` clauses).

A central fact of the source is that the class body defines
`get_symbol_price` twice (lines 307-400 and lines 1349-1371) and
`get_consolidated_order_history` twice (lines 402-506 and 508-612).
Python keeps only the later definition of a method, so the later
definitions are the effective ones; the earlier ones are embedded under a
`_v1` suffix.
-/

deriving instance DecidableEq for Except

namespace BinanceTracker

/-- A Python exception as the embedded code can observe it: a
`BinanceAPIException` with its integer error code, or any other exception. -/
inductive PyErr where
  | api (code : Int)
  | exc
  deriving DecidableEq

/-- Error code -1121 (invalid symbol). -/
def INVALID_SYMBOL : Int := -1121

/-- Error code -1015 (too many requests). -/
def RATE_LIMITED : Int := -1015

/-- Error code -1010 (IP banned). -/
def IP_BANNED : Int := -1010

abbrev Sym := String

/-- An order dictionary.  Keys that the source reads with a `.get` or an
`in`-test (`commission`, `normalizedPrice`, `normalizedTotal`) are `Option`
valued; keys the source always writes before reading are plain fields with
a default standing for an absent key.  The numeric strings of the raw API
response are modelled directly as rationals (the `float(...)` conversions
of the source are the identity here). -/
structure Order where
  orderId : Int := 0
  side : String := ""
  status : String := ""
  price : Rat := 0
  origQty : Rat := 0
  executedQty : Rat := 0
  cummulativeQuoteQty : Rat := 0
  timeMs : Int := 0
  timeStr : String := ""
  avgPrice : Rat := 0
  lockedQty : Rat := 0
  commission : Option Rat := none
  isManual : Bool := false
  baseAsset : String := ""
  quoteAsset : String := ""
  originalSymbol : String := ""
  normalizedPrice : Option Rat := none
  normalizedTotal : Option Rat := none
  baseCurrency : String := ""
  deriving DecidableEq

/-- The exchange client (`self.client`) and ambient effects, as pure
functions.  Each price-shaped call returns the already-extracted float.
`fmtTime` stands for `time.strftime` over `time.localtime` (it depends on
the local timezone, hence lives in the environment), and `now` for
`time.time()`. -/
structure Env where
  get_all_orders : Sym → Option Nat → Except PyErr (List Order)
  get_open_orders_api : Sym → Except PyErr (List Order)
  get_symbol_ticker : Sym → Except PyErr Rat
  get_ticker_price : Sym → Except PyErr Rat
  get_ticker_last : Sym → Except PyErr Rat
  get_avg_price : Sym → Except PyErr Rat
  get_recent_trade : Sym → Except PyErr Rat
  get_kline_close : Sym → Except PyErr Rat
  fmtTime : Int → String
  now : Rat

/-- The mutable fields of `BinanceApiClient` that the embedded operations
read or write.  A dictionary with list values is a function returning `[]`
for an absent key (matching the truthiness tests of the source); the
symbol-mapping dictionary is an association list because the source
iterates over its items. -/
structure State where
  manual_orders : Sym → List Order
  symbol_mappings : List (Sym × Sym)
  ticker_cache : Sym → Option (Rat × Rat)
  preferences : Sym → String
  fee_maker : Rat := 1 / 1000
  fee_taker : Rat := 1 / 1000
  socket_manager_present : Bool := false
  socket_connections : List (Sym × String) := []
  price_callbacks : List Sym := []

/-- First-match lookup in an association list (Python dict `.get`). -/
def lookupMap (m : List (Sym × Sym)) (k : Sym) : Option Sym :=
  match m with
  | [] => none
  | kv :: rest => if kv.1 = k then some kv.2 else lookupMap rest k

/-- Lines 1337-1347: `self.symbol_mappings.get(symbol, symbol)`. -/
def get_mapped_symbol (st : State) (symbol : Sym) : Sym :=
  (lookupMap st.symbol_mappings symbol).getD symbol

/-- Lines 1278-1288: `self.manual_orders.get(symbol, [])`. -/
def get_manual_orders (st : State) (symbol : Sym) : List Order :=
  st.manual_orders symbol

/-- Lines 1349-1371: the second, effective definition of
`get_symbol_price` (Python keeps only the last method of a given name, so
this one shadows the cached definition of lines 307-400).  It resolves the
mapping, issues one ticker call and re-raises any failure.  Besides the
result we return the list of price-endpoint calls issued and the list of
backoff sleeps performed, read off the body: exactly one call, no sleep,
and no access to `ticker_cache`. -/
def get_symbol_price (env : Env) (st : State) (symbol : Sym) :
    Except PyErr Rat × List Sym × List Rat :=
  let mapped := get_mapped_symbol st symbol
  (env.get_symbol_ticker mapped, [mapped], [])

/-- The result component of the effective `get_symbol_price`. -/
def get_symbol_price_res (env : Env) (st : State) (symbol : Sym) :
    Except PyErr Rat :=
  (get_symbol_price env st symbol).1

/-- Cache write `self.ticker_cache[symbol] = (time.time(), price)`. -/
def cache_put (st : State) (symbol : Sym) (t p : Rat) : State :=
  { st with ticker_cache := fun s => if s = symbol then some (t, p) else st.ticker_cache s }

/-- The five fallback price queries of lines 346-357, in order. -/
def fallback_methods (env : Env) : List (Sym → Except PyErr Rat) :=
  [env.get_ticker_price, env.get_ticker_last, env.get_avg_price,
   env.get_recent_trade, env.get_kline_close]

/-- Lines 359-368: try each fallback in turn, first success wins, every
failure of any kind just moves on to the next method. -/
def try_fallbacks (symbol : Sym) : List (Sym → Except PyErr Rat) → Option Rat
  | [] => none
  | f :: rest =>
    match f symbol with
    | .ok p => some p
    | .error _ => try_fallbacks symbol rest

/-- Lines 307-400: the first definition of `get_symbol_price`, with cache,
mapped-symbol redirect, fallback chain and rate-limit handling.  It is dead
code at runtime (shadowed by the later definition).  Its self-calls on
lines 343 and 384 pass two arguments; were this body ever executed, those
calls would dispatch to the effective one-argument definition and raise
TypeError, which the surrounding handler does not catch - modelled as
`.error .exc`.  Returns the result together with the updated state. -/
def get_symbol_price_v1 (env : Env) (st : State) (symbol : Sym)
    (use_cache : Bool) : Except PyErr Rat × State :=
  let hit : Option Rat :=
    if use_cache then
      match st.ticker_cache symbol with
      | some (cache_time, price) =>
        if env.now - cache_time < 5 then some price else none
      | none => none
    else none
  match hit with
  | some price => (.ok price, st)
  | none =>
    match env.get_symbol_ticker symbol with
    | .ok price => (.ok price, cache_put st symbol env.now price)
    | .error .exc => (.error .exc, st)
    | .error (.api code) =>
      if code = INVALID_SYMBOL then
        if get_mapped_symbol st symbol ≠ symbol then (.error .exc, st)
        else
          match try_fallbacks symbol (fallback_methods env) with
          | some price => (.ok price, cache_put st symbol env.now price)
          | none => (.error (.api code), st)
      else if code = RATE_LIMITED then
        match st.ticker_cache symbol with
        | some (_, price) => (.ok price, st)
        | none => (.error .exc, st)
      else if code = IP_BANNED then
        match st.ticker_cache symbol with
        | some (_, price) => (.ok price, st)
        | none => (.error (.api code), st)
      else
        match st.ticker_cache symbol with
        | some (_, price) => (.ok price, st)
        | none => (.error (.api code), st)

/-- Descending stable sort on the formatted time string:
`all_orders.sort(key=lambda x: x.get("time", ""), reverse=True)`.  A stable
sort under a total preorder has a unique result, so the insertion sort
used here produces exactly the list the Python sort produces. -/
def ordGe (a b : Order) : Prop := b.timeStr ≤ a.timeStr

instance : DecidableRel ordGe :=
  fun a b => inferInstanceAs (Decidable (b.timeStr ≤ a.timeStr))

def sort_orders (l : List Order) : List Order :=
  List.insertionSort ordGe l

/-- Lines 614-682: `get_order_history`.  The success path filters to
FILLED orders, recomputes the average price, formats the timestamp and
appends the manual fills; the handler catches only `BinanceAPIException`
and degrades to the manual fills (empty when there are none); any other
exception propagates. -/
def get_order_history (env : Env) (st : State) (symbol : Sym) :
    Except PyErr (List Order) :=
  let manual := get_manual_orders st symbol
  let mapped := get_mapped_symbol st symbol
  match env.get_all_orders mapped none with
  | .ok orders =>
    let filled := orders.filter (fun o => o.status = "FILLED")
    let processed := filled.map (fun o =>
      { o with
        avgPrice := if o.executedQty > 0 then o.cummulativeQuoteQty / o.executedQty else 0,
        timeStr := env.fmtTime o.timeMs,
        isManual := false })
    .ok (sort_orders (processed ++ manual))
  | .error (.api code) =>
    if code = INVALID_SYMBOL ∧ manual ≠ [] then .ok manual
    else .ok (if manual ≠ [] then manual else [])
  | .error .exc => .error .exc

/-- Lines 684-729: `get_open_orders`.  Adds the locked quantity per open
order; invalid symbol yields `[]`, other API errors re-raise, non-API
exceptions propagate. -/
def get_open_orders (env : Env) (st : State) (symbol : Sym) :
    Except PyErr (List Order) :=
  let mapped := get_mapped_symbol st symbol
  match env.get_open_orders_api mapped with
  | .ok orders =>
    .ok (orders.map (fun o =>
      { o with lockedQty := o.origQty - o.executedQty, timeStr := env.fmtTime o.timeMs }))
  | .error (.api code) =>
    if code = INVALID_SYMBOL then .ok []
    else .error (.api code)
  | .error .exc => .error .exc

/-- The fixed quote-currency priority of lines 417 and 523. -/
def quote_priority : List Sym := ["USDT", "BUSD", "USDC", "BTC", "ETH"]

/-- Pair-existence probe of the effective implementation (lines 526-535):
`get_all_orders(symbol=pair, limit=1)`; manual fills are consulted only in
the `except Exception` branch, so a probe that succeeds with zero orders
leaves the flag false even when manual fills exist. -/
def pair_probe (env : Env) (st : State) (asset quote : Sym) : Bool :=
  let pair := asset ++ quote
  match env.get_all_orders pair (some 1) with
  | .ok orders => !orders.isEmpty
  | .error _ => !(st.manual_orders pair).isEmpty

/-- Pair-existence probe of the first (shadowed) implementation
(lines 420-429): identical except that the handler is
`except BinanceAPIException`, so a non-API exception propagates. -/
def pair_probe_v1 (env : Env) (st : State) (asset quote : Sym) :
    Except PyErr Bool :=
  let pair := asset ++ quote
  match env.get_all_orders pair (some 1) with
  | .ok orders => .ok (!orders.isEmpty)
  | .error (.api _) => .ok (!(st.manual_orders pair).isEmpty)
  | .error .exc => .error .exc

/-- The quote-priority loop of lines 523-538 (effective version). -/
def discover_pairs (env : Env) (st : State) (asset : Sym) :
    List Sym → List Sym
  | [] => []
  | quote :: rest =>
    if pair_probe env st asset quote then
      (asset ++ quote) :: discover_pairs env st asset rest
    else discover_pairs env st asset rest

/-- The quote-priority loop of lines 417-432 (first version). -/
def discover_pairs_v1 (env : Env) (st : State) (asset : Sym) :
    List Sym → Except PyErr (List Sym)
  | [] => .ok []
  | quote :: rest =>
    match pair_probe_v1 env st asset quote with
    | .error e => .error e
    | .ok has =>
      match discover_pairs_v1 env st asset rest with
      | .error e => .error e
      | .ok others => .ok (if has then (asset ++ quote) :: others else others)

/-- Lines 540-543 (identical to 434-437): append every mapped valid symbol
whose invalid source symbol starts with the asset name, skipping
duplicates against the list built so far. -/
def add_mapping_pairs (st : State) (asset : Sym) (pairs : List Sym) : List Sym :=
  st.symbol_mappings.foldl
    (fun acc m =>
      if m.1.startsWith asset && !(acc.contains m.2) then acc ++ [m.2] else acc)
    pairs

/-- The full pair-discovery of the effective implementation. -/
def all_pairs (env : Env) (st : State) (asset : Sym) : List Sym :=
  add_mapping_pairs st asset (discover_pairs env st asset quote_priority)

/-- The full pair-discovery of the first implementation. -/
def all_pairs_v1 (env : Env) (st : State) (asset : Sym) :
    Except PyErr (List Sym) :=
  match discover_pairs_v1 env st asset quote_priority with
  | .error e => .error e
  | .ok base => .ok (add_mapping_pairs st asset base)

/-- Pair tagging and normalization applied to each order of a pair
(lines 550-605, token-identical to lines 444-499 of the first
implementation apart from one log statement, hence shared).  The
reverse-pair conversion computes `1 / price` in Python, so a zero price
raises ZeroDivisionError, caught by the bare `except` - modelled by the
explicit zero test.  Note the leave-as-is fallback inside the inner
`except` still labels the order with the requested base currency
(line 594), while the outer `except Exception` fallback labels it with its
own quote asset (line 600). -/
def normalize_order (env : Env) (st : State) (asset base_currency pair : Sym)
    (o : Order) : Order :=
  let quote_asset := pair.drop asset.length
  let o := { o with baseAsset := asset, quoteAsset := quote_asset, originalSymbol := pair }
  if quote_asset = base_currency then
    { o with normalizedPrice := some o.price,
             normalizedTotal := some o.cummulativeQuoteQty,
             baseCurrency := base_currency }
  else if quote_asset = "BTC" then
    match get_symbol_price_res env st ("BTC" ++ base_currency) with
    | .ok btc_price =>
      { o with normalizedPrice := some (o.price * btc_price),
               normalizedTotal := some (o.cummulativeQuoteQty * btc_price),
               baseCurrency := base_currency }
    | .error _ =>
      { o with normalizedPrice := some o.price,
               normalizedTotal := some o.cummulativeQuoteQty,
               baseCurrency := quote_asset }
  else if quote_asset = "ETH" then
    match get_symbol_price_res env st ("ETH" ++ base_currency) with
    | .ok eth_price =>
      { o with normalizedPrice := some (o.price * eth_price),
               normalizedTotal := some (o.cummulativeQuoteQty * eth_price),
               baseCurrency := base_currency }
    | .error _ =>
      { o with normalizedPrice := some o.price,
               normalizedTotal := some o.cummulativeQuoteQty,
               baseCurrency := quote_asset }
  else
    match get_symbol_price_res env st (quote_asset ++ base_currency) with
    | .ok rate =>
      { o with normalizedPrice := some (o.price * rate),
               normalizedTotal := some (o.cummulativeQuoteQty * rate),
               baseCurrency := base_currency }
    | .error _ =>
      match get_symbol_price_res env st (base_currency ++ quote_asset) with
      | .ok p =>
        if p = 0 then
          { o with normalizedPrice := some o.price,
                   normalizedTotal := some o.cummulativeQuoteQty,
                   baseCurrency := base_currency }
        else
          { o with normalizedPrice := some (o.price * (1 / p)),
                   normalizedTotal := some (o.cummulativeQuoteQty * (1 / p)),
                   baseCurrency := base_currency }
      | .error _ =>
        { o with normalizedPrice := some o.price,
                 normalizedTotal := some o.cummulativeQuoteQty,
                 baseCurrency := base_currency }

/-- Lines 546-607: fetch and annotate the orders of every discovered pair,
concatenating in pair order; a propagating exception from
`get_order_history` aborts the whole call. -/
def consolidate_pairs (env : Env) (st : State) (asset base_currency : Sym) :
    List Sym → Except PyErr (List Order)
  | [] => .ok []
  | pair :: rest =>
    match get_order_history env st pair with
    | .error e => .error e
    | .ok orders =>
      match consolidate_pairs env st asset base_currency rest with
      | .error e => .error e
      | .ok others =>
        .ok (orders.map (normalize_order env st asset base_currency pair) ++ others)

/-- Lines 508-612: the second, effective definition of
`get_consolidated_order_history`. -/
def get_consolidated_order_history (env : Env) (st : State)
    (asset base_currency : Sym) : Except PyErr (List Order) :=
  match consolidate_pairs env st asset base_currency (all_pairs env st asset) with
  | .error e => .error e
  | .ok orders => .ok (sort_orders orders)

/-- Lines 402-506: the first (shadowed) definition of
`get_consolidated_order_history`; it differs from the effective one only
in the pair-probe handler (`except BinanceAPIException` against
`except Exception`) and one log statement. -/
def get_consolidated_order_history_v1 (env : Env) (st : State)
    (asset base_currency : Sym) : Except PyErr (List Order) :=
  match all_pairs_v1 env st asset with
  | .error e => .error e
  | .ok pairs =>
    match consolidate_pairs env st asset base_currency pairs with
    | .error e => .error e
    | .ok orders => .ok (sort_orders orders)

/-- calculator.py lines 4-27: `calculate_average_buy_price`, the sum of
quote quantities over the sum of executed quantities across BUY fills
only, zero when there is no BUY quantity. -/
def calculate_average_buy_price (orders : List Order) : Rat :=
  let totals := orders.foldl
    (fun acc o =>
      if o.side = "BUY" then (acc.1 + o.cummulativeQuoteQty, acc.2 + o.executedQty)
      else acc)
    ((0 : Rat), (0 : Rat))
  if totals.2 = 0 then 0 else totals.1 / totals.2

/-- The position-metrics dictionary returned by
`calculate_position_metrics` (lines 950-965 on success, 968-983 on
failure).  The success dictionary carries no `error` key and the failure
dictionary no `mapped_symbol` key; an absent key is the default here. -/
structure Metrics where
  symbol : Sym := ""
  current_price : Rat := 0
  holdings : Rat := 0
  available : Rat := 0
  locked : Rat := 0
  open_orders : List Order := []
  avg_buy_price : Rat := 0
  break_even_price : Rat := 0
  total_cost : Rat := 0
  current_value : Rat := 0
  pnl_amount : Rat := 0
  pnl_percent : Rat := 0
  is_manual : Bool := false
  mapped_symbol : Option Sym := none
  error : Option PyErr := none
  deriving DecidableEq

/-- The all-zero failure dictionary of lines 968-983. -/
def zero_metrics (symbol : Sym) (e : PyErr) : Metrics :=
  { symbol := symbol, current_price := 0, holdings := 0, available := 0,
    locked := 0, open_orders := [], avg_buy_price := 0, break_even_price := 0,
    total_cost := 0, current_value := 0, pnl_amount := 0, pnl_percent := 0,
    is_manual := false, error := some e }

/-- The accumulation loop of lines 902-916: running
(total_cost, total_qty, total_fees); the estimated fee (a flat 0.1% of the
cost) is accumulated for every order regardless of side, then BUY adds
cost and quantity and SELL subtracts both. -/
def position_totals (orders : List Order) : Rat × Rat × Rat :=
  orders.foldl
    (fun acc o =>
      let cost := o.cummulativeQuoteQty
      let fees := acc.2.2 + cost * (1 / 1000)
      if o.side = "BUY" then (acc.1 + cost, acc.2.1 + o.executedQty, fees)
      else if o.side = "SELL" then (acc.1 - cost, acc.2.1 - o.executedQty, fees)
      else (acc.1, acc.2.1, fees))
    (0, 0, 0)

/-- The order acquisition of lines 858-879: `if not manual_orders:` is a
falsiness test, so an explicitly supplied empty list also takes the API
path; `all(...)` over an empty order list is true.  Only
`BinanceAPIException` is caught here; the open-order block below is
wrapped in `except Exception` and never raises, while the current-price
block re-raises API errors other than invalid symbol. -/
def cpm_fetch (env : Env) (st : State) (symbol : Sym)
    (manual_orders_arg : Option (List Order)) : Except PyErr (List Order × Bool) :=
  if manual_orders_arg.getD [] = [] then
    match get_order_history env st symbol with
    | .ok orders => .ok (orders, orders.all (fun o => o.isManual))
    | .error (.api code) =>
      if code = INVALID_SYMBOL then .ok (get_manual_orders st symbol, true)
      else .error (.api code)
    | .error .exc => .error .exc
  else .ok (manual_orders_arg.getD [], true)

/-- The current-price resolution of lines 919-938. -/
def cpm_price (env : Env) (st : State) (symbol : Sym)
    (manual_price : Option Rat) : Except PyErr Rat :=
  match manual_price with
  | some p => .ok p
  | none =>
    let mapped := get_mapped_symbol st symbol
    match get_symbol_price_res env st (if mapped ≠ symbol then mapped else symbol) with
    | .ok p => .ok p
    | .error (.api code) =>
      if code = INVALID_SYMBOL then .ok 0 else .error (.api code)
    | .error .exc => .error .exc

/-- The remainder of the `try` body: locked quantities, optional order
filter, totals, and the result dictionary of lines 950-965. -/
def cpm_inner (env : Env) (st : State) (symbol : Sym)
    (include_orders : Option (List Int)) (manual_price : Option Rat)
    (manual_orders_arg : Option (List Order)) : Except PyErr Metrics :=
  match cpm_fetch env st symbol manual_orders_arg with
  | .error e => .error e
  | .ok fb =>
    let orders0 := fb.1
    let is_manual := fb.2
    let lockInfo : List Order × Rat :=
      match get_open_orders env st symbol with
      | .ok oo =>
        (oo, (oo.filter (fun o => o.side = "SELL")).foldl (fun a o => a + o.lockedQty) 0)
      | .error _ => ([], 0)
    let orders : List Order :=
      match include_orders with
      | some ids => orders0.filter (fun o => ids.contains o.orderId)
      | none => orders0
    let t := position_totals orders
    match cpm_price env st symbol manual_price with
    | .error e => .error e
    | .ok current_price =>
      let total_cost := t.1
      let total_qty := t.2.1
      let total_fees := t.2.2
      let current_value := total_qty * current_price
      let pnl_amount := current_value - total_cost
      let mapped := get_mapped_symbol st symbol
      .ok { symbol := symbol, current_price := current_price,
            holdings := total_qty,
            available := total_qty - lockInfo.2, locked := lockInfo.2,
            open_orders := lockInfo.1,
            avg_buy_price := if total_qty > 0 then total_cost / total_qty else 0,
            break_even_price := if total_qty > 0 then (total_cost + total_fees) / total_qty else 0,
            total_cost := total_cost, current_value := current_value,
            pnl_amount := pnl_amount,
            pnl_percent := if total_cost > 0 then pnl_amount / total_cost * 100 else 0,
            is_manual := is_manual || manual_price.isSome || manual_orders_arg.isSome,
            mapped_symbol := if mapped ≠ symbol then some mapped else none,
            error := none }

/-- Lines 833-983: `calculate_position_metrics` with its boundary
`except Exception` handler converting any exception into the all-zero
dictionary carrying an `error` entry. -/
def calculate_position_metrics (env : Env) (st : State) (symbol : Sym)
    (include_orders : Option (List Int)) (manual_price : Option Rat)
    (manual_orders_arg : Option (List Order)) : Metrics :=
  match cpm_inner env st symbol include_orders manual_price manual_orders_arg with
  | .ok m => m
  | .error e => zero_metrics symbol e

/-- The consolidated-metrics dictionary of lines 801-831. -/
structure ConsolidatedMetrics where
  asset : Sym := ""
  baseCurrency : Sym := ""
  current_price : Rat := 0
  holdings : Rat := 0
  avg_buy_price : Rat := 0
  break_even_price : Rat := 0
  total_cost : Rat := 0
  current_value : Rat := 0
  pnl_amount : Rat := 0
  pnl_percent : Rat := 0
  trading_pairs : List Sym := []
  order_count : Nat := 0
  error : Option PyErr := none
  deriving DecidableEq

/-- The all-zero failure dictionary of lines 817-831. -/
def zero_consolidated_metrics (asset base_currency : Sym) (e : PyErr) :
    ConsolidatedMetrics :=
  { asset := asset, baseCurrency := base_currency, current_price := 0,
    holdings := 0, avg_buy_price := 0, break_even_price := 0, total_cost := 0,
    current_value := 0, pnl_amount := 0, pnl_percent := 0, trading_pairs := [],
    order_count := 0, error := some e }

/-- The accumulation loop of lines 752-773: normalized total when present,
per-fill fee from the commission field when present else the taker or
maker estimate. -/
def consolidated_totals (st : State) (orders : List Order) : Rat × Rat × Rat :=
  orders.foldl
    (fun acc o =>
      let cost := (o.normalizedTotal).getD o.cummulativeQuoteQty
      let fee0 := if o.side = "BUY" then cost * st.fee_taker else cost * st.fee_maker
      let fees := acc.2.2 + (o.commission).getD fee0
      if o.side = "BUY" then (acc.1 + cost, acc.2.1 + o.executedQty, fees)
      else if o.side = "SELL" then (acc.1 - cost, acc.2.1 - o.executedQty, fees)
      else (acc.1, acc.2.1, fees))
    (0, 0, 0)

/-- `list(set(...))` over the original symbols (line 799), modelled in
first-occurrence order (the Python set iteration order is unspecified). -/
def distinct_syms (l : List Sym) : List Sym :=
  l.foldl (fun acc s => if acc.contains s then acc else acc ++ [s]) []

/-- The body of the `try` of `calculate_consolidated_position_metrics`
(lines 742-814).  The current-price resolution (lines 776-789) is wrapped
in bare `except` clauses at every stage, so it never raises; the only
raising call is `get_consolidated_order_history`. -/
def ccpm_inner (env : Env) (st : State) (asset base_currency : Sym) :
    Except PyErr ConsolidatedMetrics :=
  match get_consolidated_order_history env st asset base_currency with
  | .error e => .error e
  | .ok all_orders =>
    let t := consolidated_totals st all_orders
    let current_price : Rat :=
      match get_symbol_price_res env st (asset ++ base_currency) with
      | .ok p => p
      | .error _ =>
        match get_symbol_price_res env st ("BTC" ++ base_currency),
              get_symbol_price_res env st (asset ++ "BTC") with
        | .ok btc_price, .ok asset_btc => asset_btc * btc_price
        | _, _ =>
          match all_orders with
          | o :: _ => (o.normalizedPrice).getD 0
          | [] => 0
    let total_cost := t.1
    let total_qty := t.2.1
    let total_fees := t.2.2
    let current_value := total_qty * current_price
    let pnl_amount := current_value - total_cost
    .ok { asset := asset, baseCurrency := base_currency,
          current_price := current_price, holdings := total_qty,
          avg_buy_price := if total_qty > 0 then total_cost / total_qty else 0,
          break_even_price := if total_qty > 0 then (total_cost + total_fees) / total_qty else 0,
          total_cost := total_cost, current_value := current_value,
          pnl_amount := pnl_amount,
          pnl_percent := if total_cost > 0 then pnl_amount / total_cost * 100 else 0,
          trading_pairs := distinct_syms (all_orders.map (fun o => o.originalSymbol)),
          order_count := all_orders.length,
          error := none }

/-- Lines 731-831: `calculate_consolidated_position_metrics` with its
boundary handler. -/
def calculate_consolidated_position_metrics (env : Env) (st : State)
    (asset base_currency : Sym) : ConsolidatedMetrics :=
  match ccpm_inner env st asset base_currency with
  | .ok m => m
  | .error e => zero_consolidated_metrics asset base_currency e

/-- One entry of `account["balances"]`. -/
structure AccountBal where
  asset : Sym
  free : Rat
  locked : Rat
  deriving DecidableEq

/-- One entry of the list `get_spot_balances` returns (lines 279-286). -/
structure Balance where
  asset : Sym
  free : Rat
  locked : Rat
  total : Rat
  usd_value : Rat
  preferred_pair : String
  deriving DecidableEq

/-- The stable-value assets of line 222. -/
def stablecoins : List Sym := ["USDT", "USDC", "BUSD", "TUSD", "DAI", "USDP", "FDUSD", "USDK"]

/-- The quote-chain loop of lines 256-270: the first quote whose pair is
present in the price table wins (and breaks the loop), even when its
bridge pair is missing and the dollar value therefore stays zero. -/
def usd_from_quotes (prices : Sym → Option Rat) (asset : Sym) (total : Rat) :
    List Sym → Rat
  | [] => 0
  | quote :: rest =>
    match prices (asset ++ quote) with
    | none => usd_from_quotes prices asset total rest
    | some p =>
      if quote ∈ stablecoins then total * p
      else if quote = "BTC" then
        match prices "BTCUSDT" with
        | some b => total * p * b
        | none => 0
      else if quote = "ETH" then
        match prices "ETHUSDT" with
        | some e2 => total * p * e2
        | none => 0
      else 0

/-- Lines 1452-1466: `get_preferred_pair`. -/
def get_preferred_pair (st : State) (asset : Sym) : String :=
  st.preferences asset

/-- The per-balance body of the loop of lines 238-286: skip non-positive
totals, compute the dollar value, skip values below the threshold. -/
def spot_entry (st : State) (prices : Sym → Option Rat) (min_value : Rat)
    (b : AccountBal) : Option Balance :=
  let total := b.free + b.locked
  if total ≤ 0 then none
  else
    let usd_value :=
      if b.asset ∈ stablecoins then total
      else usd_from_quotes prices b.asset total quote_priority
    if usd_value < min_value then none
    else some { asset := b.asset, free := b.free, locked := b.locked,
                total := total, usd_value := usd_value,
                preferred_pair := get_preferred_pair st b.asset }

/-- Descending order on the dollar value, the key of the final sort
(line 289). -/
def balGe (a b : Balance) : Prop := b.usd_value ≤ a.usd_value

instance : DecidableRel balGe :=
  fun a b => inferInstanceAs (Decidable (b.usd_value ≤ a.usd_value))

instance : IsTotal Balance balGe := ⟨fun a b => le_total b.usd_value a.usd_value⟩

instance : IsTrans Balance balGe := ⟨fun _ _ _ hab hbc => le_trans hbc hab⟩

/-- The successful body of `get_spot_balances` given the account balances
and the price table: filter, value, threshold, then the stable descending
sort of line 289. -/
def spot_balances_core (st : State) (prices : Sym → Option Rat)
    (min_value : Rat) (account : List AccountBal) : List Balance :=
  List.insertionSort balGe (account.filterMap (spot_entry st prices min_value))

/-- The dict comprehension of line 227 building the symbol-to-price table
(a later duplicate key would win, as in a Python dict). -/
def build_prices (ts : List (Sym × Rat)) : Sym → Option Rat :=
  ts.foldl (fun acc kv => fun s => if s = kv.1 then some kv.2 else acc s)
    (fun _ => none)

/-- Lines 180-205: `get_account_info` over the stream of successive
`client.get_account()` outcomes.  A rate-limited response is retried after
a jittered sleep of `30 + random(1, 30)` seconds, recursively and without
bound; the settled outcome is returned together with the unconsumed
remainder of the stream, and `none` models exhausting the stream while
still retrying. -/
def get_account_info : List (Except PyErr (List AccountBal)) →
    Option (Except PyErr (List AccountBal) × List (Except PyErr (List AccountBal)))
  | [] => none
  | r :: rest =>
    match r with
    | .ok a => some (.ok a, rest)
    | .error (.api code) =>
      if code = IP_BANNED then some (.error (.api code), rest)
      else if code = RATE_LIMITED then get_account_info rest
      else some (.error (.api code), rest)
    | .error .exc => some (.error .exc, rest)

/-- The body of the `try` of `get_spot_balances` (lines 217-289), given
the settled account outcome and the all-tickers outcome.  A rate-limit or
ban failure of the ticker listing degrades to an empty price table
(lines 230-236); any other API error re-raises, and a non-API exception
propagates. -/
def spot_attempt (st : State) (acct_result : Except PyErr (List AccountBal))
    (tickers : Except PyErr (List (Sym × Rat))) (min_value : Rat) :
    Except PyErr (List Balance) :=
  match acct_result with
  | .error e => .error e
  | .ok account =>
    match tickers with
    | .ok ts => .ok (spot_balances_core st (build_prices ts) min_value account)
    | .error (.api code) =>
      if code = IP_BANNED ∨ code = RATE_LIMITED then
        .ok (spot_balances_core st (fun _ => none) min_value account)
      else .error (.api code)
    | .error .exc => .error .exc

/-- Lines 207-305: `get_spot_balances`.  The handler returns `[]` on an IP
ban and on any other API error, and on a rate-limited failure sleeps
`30 + random(1, 30)` seconds and retries the whole call; the retry is a
full recursive call, bounded here by fuel, with `none` modelling
divergence. -/
def get_spot_balances (st : State) (tickers : Except PyErr (List (Sym × Rat)))
    (min_value : Rat) :
    Nat → List (Except PyErr (List AccountBal)) → Option (Except PyErr (List Balance))
  | 0, _ => none
  | fuel + 1, acct_stream =>
    match get_account_info acct_stream with
    | none => none
    | some (acct_result, rest) =>
      match spot_attempt st acct_result tickers min_value with
      | .ok l => some (.ok l)
      | .error (.api code) =>
        if code = IP_BANNED then some (.ok [])
        else if code = RATE_LIMITED then get_spot_balances st tickers min_value fuel rest
        else some (.ok [])
      | .error .exc => some (.error .exc)

/-- Association-list write, modelling a Python dict item assignment. -/
def dict_set (d : List (Sym × String)) (k : Sym) (v : String) :
    List (Sym × String) :=
  match d with
  | [] => [(k, v)]
  | kv :: rest => if kv.1 = k then (k, v) :: rest else kv :: dict_set rest k v

/-- Key-set write for the callback table (the callback values themselves
are irrelevant to the embedded claims, only the key set is tracked). -/
def key_set (d : List Sym) (k : Sym) : List Sym :=
  if d.contains k then d else d ++ [k]

/-- Lines 1153-1189: `_start_polling` registers the callback and records
the polling connection key; it never touches `socket_manager`. -/
def start_polling (st : State) (symbol : Sym) : State × String :=
  let poll_id := "poll_" ++ symbol
  let st := { st with price_callbacks := key_set st.price_callbacks symbol }
  let st := { st with socket_connections := dict_set st.socket_connections symbol poll_id }
  (st, poll_id)

/-- One evaluation of the polling-loop guard of line 1171: the loop runs
for another iteration exactly when the symbol is still registered in
`price_callbacks`. -/
def poll_continues (st : State) (symbol : Sym) : Bool :=
  st.price_callbacks.contains symbol

/-- Lines 1468-1487: `close_websockets`.  Everything - including the
clearing of `socket_connections` and `price_callbacks` - sits under
`if self.socket_manager is not None`, so with no socket manager the state
is returned untouched. -/
def close_websockets (st : State) : State :=
  if st.socket_manager_present then
    { st with socket_manager_present := false, socket_connections := [],
              price_callbacks := [] }
  else st

/-! ## Concrete fixtures used by the claim theorems -/

/-- A client state with no manual fills, no mappings, an empty price cache
and default preferences and fee rates. -/
def st0 : State :=
  { manual_orders := fun _ => [],
    symbol_mappings := [],
    ticker_cache := fun _ => none,
    preferences := fun _ => "" }

/-- An environment in which every client call raises a non-Binance
exception (for instance a transport failure). -/
def env_exc : Env :=
  { get_all_orders := fun _ _ => .error .exc,
    get_open_orders_api := fun _ => .error .exc,
    get_symbol_ticker := fun _ => .error .exc,
    get_ticker_price := fun _ => .error .exc,
    get_ticker_last := fun _ => .error .exc,
    get_avg_price := fun _ => .error .exc,
    get_recent_trade := fun _ => .error .exc,
    get_kline_close := fun _ => .error .exc,
    fmtTime := fun _ => "",
    now := 0 }

/-- An environment in which the ticker endpoint is rate limited,
observed at time 103. -/
def env_rl : Env :=
  { env_exc with get_symbol_ticker := fun _ => .error (.api (-1015)), now := 103 }

/-- A state holding a price for BTCUSDT cached at time 100 (3 seconds
before `env_rl.now`, hence younger than the 5 second TTL). -/
def st_cache : State :=
  { st0 with ticker_cache := fun s => if s = "BTCUSDT" then some (100, 42) else none }

/-- A state holding one manual BUY fill for the pair ABCUSDT. -/
def c4_manual_fill : Order :=
  { orderId := -1, side := "BUY", executedQty := 1, cummulativeQuoteQty := 5,
    timeStr := "2024-01-01 00:00:00", isManual := true }

def st_manual_abc : State :=
  { st0 with manual_orders := fun s => if s = "ABCUSDT" then [c4_manual_fill] else [] }

/-- An environment raising a BinanceAPIException with an error code that is
neither invalid-symbol, rate-limited nor banned, on every order query. -/
def env_api_other : Env :=
  { env_exc with get_all_orders := fun _ _ => .error (.api (-2010)) }

/-! ## C1 -/

/-- C1: with `useCache` and a PricePoint younger than 5 seconds, the
claim says the cached price is returned without consulting the network.
The shadowed first definition of `get_symbol_price` (lines 307-400)
behaves exactly so - at a state caching (time 100, price 42) and an
environment at time 103 whose ticker endpoint fails, it returns the cached
42 and leaves the state untouched - but the effective second definition
(lines 1349-1371), which is what a call dispatches to, never reads the
cache and re-raises the failure of the second call. -/
theorem C1_cache_dead_code :
    (get_symbol_price_v1 env_rl st_cache "BTCUSDT" true).1 = .ok 42 ∧
    (get_symbol_price_v1 env_rl st_cache "BTCUSDT" true).2 = st_cache ∧
    get_symbol_price_res env_rl st_cache "BTCUSDT" = .error (.api (-1015)) := by
  refine ⟨?_, ?_, ?_⟩
  · simp [get_symbol_price_v1, env_rl, st_cache, st0, env_exc]
    norm_num
  · simp [get_symbol_price_v1, env_rl, st_cache, st0, env_exc]
    norm_num
  · simp [get_symbol_price_res, get_symbol_price, env_rl, st_cache, st0, env_exc,
      get_mapped_symbol, lookupMap]

/-! ## C2 -/

/-- C2: the claim says that on a RATE_LIMITED failure with no cached
price, `get_symbol_price` sleeps and retries the whole call exactly once.
At a state with an empty cache and an environment whose ticker endpoint is
rate limited, the effective `get_symbol_price` issues exactly one price
call and performs no sleep - so it is false that it slept and issued a
second (retry) call. -/
theorem C2_counterexample :
    get_symbol_price env_rl st0 "BTCUSDT" = (.error (.api (-1015)), ["BTCUSDT"], []) ∧
    ¬ ((get_symbol_price env_rl st0 "BTCUSDT").2.2 ≠ [] ∧
       (get_symbol_price env_rl st0 "BTCUSDT").2.1.length = 2) := by
  constructor
  · simp [get_symbol_price, env_rl, st0, env_exc, get_mapped_symbol, lookupMap]
  · simp [get_symbol_price, env_rl, st0, env_exc, get_mapped_symbol, lookupMap]

/-- C2 (amended): when the ticker query for the mapped symbol fails, the
effective `get_symbol_price` surfaces that failure immediately to the
caller: it makes exactly one price call, performs no backoff sleep and no
retry, and never consults the cache - the rate-limit handling of the
claim lives only in the shadowed first definition. -/
theorem C2_no_retry (env : Env) (st : State) (symbol : Sym) (e : PyErr)
    (h : env.get_symbol_ticker (get_mapped_symbol st symbol) = .error e) :
    get_symbol_price env st symbol = (.error e, [get_mapped_symbol st symbol], []) := by
  simp [get_symbol_price, h]

/-- C2 witness: the amended theorem applied at the rate-limited
environment with an empty cache. -/
theorem C2_no_retry_witness :
    get_symbol_price env_rl st0 "BTCUSDT" =
      (.error (.api (-1015)), [get_mapped_symbol st0 "BTCUSDT"], []) :=
  C2_no_retry env_rl st0 "BTCUSDT" (.api (-1015)) rfl

/-! ## C5 -/

/-- C5: the claim says no exception of any kind propagates out of
`get_order_history`.  With manual fills present for ABCUSDT and an
environment whose order query raises a non-Binance exception (for example
a transport error), the call propagates the exception instead of degrading
to the manual fills: the handler catches only `BinanceAPIException`. -/
theorem C5_counterexample :
    st_manual_abc.manual_orders "ABCUSDT" ≠ [] ∧
    get_order_history env_exc st_manual_abc "ABCUSDT" = .error .exc := by
  constructor
  · simp [st_manual_abc, st0]
  · simp [get_order_history, env_exc, st_manual_abc, st0, get_mapped_symbol,
      lookupMap, get_manual_orders]

/-- C5 (amended): for every upstream `BinanceAPIException` - any error
code, including those other than INVALID_SYMBOL - `get_order_history`
returns the manual fills for the symbol when any exist and the empty list
otherwise (that is, it returns exactly the manual-fill table entry); no
`BinanceAPIException` propagates.  A non-Binance exception, however,
does propagate (see the counterexample). -/
theorem C5_api_errors_degrade (env : Env) (st : State) (symbol : Sym) (code : Int)
    (h : env.get_all_orders (get_mapped_symbol st symbol) none = .error (.api code)) :
    get_order_history env st symbol = .ok (st.manual_orders symbol) := by
  by_cases hm : st.manual_orders symbol = [] <;>
    simp [get_order_history, h, get_manual_orders, hm]

/-- C5 witness: the amended theorem applied to an environment raising
error code -2010, at a state with manual fills for ABCUSDT. -/
theorem C5_api_errors_degrade_witness :
    get_order_history env_api_other st_manual_abc "ABCUSDT" =
      .ok (st_manual_abc.manual_orders "ABCUSDT") :=
  C5_api_errors_degrade env_api_other st_manual_abc "ABCUSDT" (-2010) rfl

/-! ## C9 -/

/-- The state reached by `_start_polling` for BTCUSDT from a fresh state:
the callback is registered but no socket manager was ever created (this is
exactly the situation when `_start_polling` is entered from the exception
handler of the websocket setup before a manager was built). -/
def st_poll : State := (start_polling st0 "BTCUSDT").1

/-- C9: the claim says `close_websockets` clears the per-symbol state
unconditionally, so every polling loop observes an empty callback table
afterwards.  At a state with an active polling registration but no socket
manager, `close_websockets` is a no-op - the whole body sits under
`if self.socket_manager is not None` - and the polling loop keeps
running. -/
theorem C9_counterexample :
    st_poll.socket_manager_present = false ∧
    poll_continues st_poll "BTCUSDT" = true ∧
    close_websockets st_poll = st_poll ∧
    poll_continues (close_websockets st_poll) "BTCUSDT" = true := by
  refine ⟨rfl, by simp [poll_continues, st_poll, start_polling, st0, key_set], ?_, ?_⟩
  · simp [close_websockets, st_poll, start_polling, st0]
  · simp [close_websockets, st_poll, start_polling, st0, poll_continues, key_set]

/-- C9 (amended): whenever a socket manager exists, `close_websockets`
clears the socket manager, the per-symbol connection table and the
callback table, so afterwards every polling loop guard evaluates to false
and every polling loop exits; when no socket manager exists the state is
left untouched (see the counterexample). -/
theorem C9_close_clears (st : State) (h : st.socket_manager_present = true) :
    (close_websockets st).socket_manager_present = false ∧
    (close_websockets st).socket_connections = [] ∧
    (close_websockets st).price_callbacks = [] ∧
    ∀ symbol, poll_continues (close_websockets st) symbol = false := by
  simp [close_websockets, h, poll_continues]

/-- C9 witness: the amended theorem applied at a state with an active
polling registration for ETHUSDT and a socket manager present. -/
theorem C9_close_clears_witness :
    (close_websockets { (start_polling st0 "ETHUSDT").1 with socket_manager_present := true }).socket_manager_present = false ∧
    (close_websockets { (start_polling st0 "ETHUSDT").1 with socket_manager_present := true }).socket_connections = [] ∧
    (close_websockets { (start_polling st0 "ETHUSDT").1 with socket_manager_present := true }).price_callbacks = [] ∧
    ∀ symbol, poll_continues (close_websockets { (start_polling st0 "ETHUSDT").1 with socket_manager_present := true }) symbol = false :=
  C9_close_clears { (start_polling st0 "ETHUSDT").1 with socket_manager_present := true } rfl

/-! ## C4 -/

/-- An environment whose order query for ABCUSDT with limit 1 succeeds
with zero orders, every other order query failing with invalid symbol. -/
def env_c4 : Env :=
  { env_exc with get_all_orders := fun pair lim =>
      if pair = "ABCUSDT" ∧ lim = some 1 then .ok [] else .error (.api (-1121)) }

/-- C4: the claim says a pair is included whenever the exchange returns at
least one order or manual fills exist for it.  With manual fills present
for ABCUSDT and an exchange probe that succeeds with zero orders, the pair
is not included and the consolidated aggregation is empty: the manual-fill
check sits only in the `except` branch of the probe. -/
theorem C4_counterexample :
    st_manual_abc.manual_orders "ABCUSDT" ≠ [] ∧
    all_pairs env_c4 st_manual_abc "ABC" = [] ∧
    get_consolidated_order_history env_c4 st_manual_abc "ABC" "USDT" = .ok [] := by
  refine ⟨by simp [st_manual_abc, st0], ?_, ?_⟩
  · simp [all_pairs, discover_pairs, quote_priority, pair_probe, env_c4, env_exc,
      st_manual_abc, st0, add_mapping_pairs]
  · simp [get_consolidated_order_history, consolidate_pairs, all_pairs, discover_pairs,
      quote_priority, pair_probe, env_c4, env_exc, st_manual_abc, st0,
      add_mapping_pairs, sort_orders, List.insertionSort]

/-- C4 (amended): for every candidate quote the pair probe reports the
pair present exactly when the exchange query returns at least one order,
or the exchange query raises (any exception) and manual fills exist for
the pair; a query that succeeds with zero orders leaves the pair absent
even when manual fills exist.  The aggregation uses exactly the probed
quote-priority pairs followed by the mapped extra symbols. -/
theorem C4_presence_criterion (env : Env) (st : State) (asset quote : Sym) :
    (pair_probe env st asset quote = true ↔
      (∃ os, env.get_all_orders (asset ++ quote) (some 1) = .ok os ∧ os ≠ []) ∨
      ((∃ e, env.get_all_orders (asset ++ quote) (some 1) = .error e) ∧
        st.manual_orders (asset ++ quote) ≠ [])) ∧
    all_pairs env st asset =
      add_mapping_pairs st asset (discover_pairs env st asset quote_priority) := by
  refine ⟨?_, rfl⟩
  cases h : env.get_all_orders (asset ++ quote) (some 1) with
  | ok os => simp [pair_probe, h]
  | error e => simp [pair_probe, h]

/-! ## C6 -/

def c6_acct : List AccountBal := [{ asset := "USDT", free := 7, locked := 0 }]

def c6_balance : Balance :=
  { asset := "USDT", free := 7, locked := 0, total := 7, usd_value := 7,
    preferred_pair := "" }

/-- C6: the claim says a RATE_LIMITED failure of the balance listing
yields an empty list to the caller.  With the account call rate limited
once and then succeeding, `get_spot_balances` returns the nonempty balance
list of the retry - the rate-limited response is consumed by the internal
sleep-and-retry of `get_account_info`, and an empty list is returned only
for the other error classes. -/
theorem C6_counterexample :
    get_spot_balances st0 (.ok []) 0 2 [.error (.api (-1015)), .ok c6_acct]
      = some (.ok [c6_balance]) ∧
    (Except.ok [c6_balance] : Except PyErr (List Balance)) ≠ .ok [] := by
  constructor
  · show get_spot_balances st0 (.ok []) 0 (1 + 1) [.error (.api (-1015)), .ok c6_acct]
      = some (.ok [c6_balance])
    simp [get_spot_balances, get_account_info, IP_BANNED, RATE_LIMITED, spot_attempt,
      spot_balances_core, build_prices, spot_entry, stablecoins, get_preferred_pair,
      st0, c6_acct, c6_balance, List.insertionSort, List.orderedInsert]
  · simp [c6_balance]

/-- Rate-limited account responses are transparently consumed by the
retry loop of `get_account_info`. -/
theorem get_account_info_rate_limited (rest : List (Except PyErr (List AccountBal))) :
    get_account_info (.error (.api (-1015)) :: rest) = get_account_info rest := by
  simp [get_account_info, IP_BANNED, RATE_LIMITED]

/-- C6 (amended): `get_spot_balances` returns an empty list when the
account call fails with IP_BANNED or with any other BinanceAPIException
code; a RATE_LIMITED response never itself produces a result - it is
retried (after a jittered sleep) inside `get_account_info`, so the call
returns whatever the next settled outcome yields, which for a subsequent
success is the nonempty balance list and never an empty list forced by the
rate limit. -/
theorem C6_rate_limit_retries (st : State) (tick : Except PyErr (List (Sym × Rat)))
    (m : Rat) (fuel : Nat) (rest : List (Except PyErr (List AccountBal))) (code : Int) :
    (get_spot_balances st tick m (fuel + 1) (.error (.api (-1015)) :: rest)
       = get_spot_balances st tick m (fuel + 1) rest) ∧
    (get_spot_balances st tick m (fuel + 1) (.error (.api (-1010)) :: rest)
       = some (.ok [])) ∧
    (code ≠ -1010 → code ≠ -1015 →
      get_spot_balances st tick m (fuel + 1) (.error (.api code) :: rest)
        = some (.ok [])) := by
  refine ⟨?_, ?_, fun h1 h2 => ?_⟩
  · simp only [get_spot_balances, get_account_info_rate_limited]
  · simp [get_spot_balances, get_account_info, IP_BANNED, RATE_LIMITED, spot_attempt]
  · simp [get_spot_balances, get_account_info, IP_BANNED, RATE_LIMITED, spot_attempt,
      h1, h2]

/-- C6 witness: the amended theorem applied with error code -2010 on an
empty remaining stream. -/
theorem C6_rate_limit_retries_witness :
    get_spot_balances st0 (.ok []) 0 (0 + 1) [.error (.api (-2010))] = some (.ok []) :=
  (C6_rate_limit_retries st0 (.ok []) 0 0 [] (-2010)).2.2
    (by norm_num) (by norm_num)

/-! ## C3 -/

def c3_buy : Order :=
  { orderId := 1, side := "BUY", executedQty := 1, cummulativeQuoteQty := 20000 }

def c3_sell : Order :=
  { orderId := 2, side := "SELL", executedQty := 1/2, cummulativeQuoteQty := 11000 }

/-- The fill list of the specification scenario. -/
def c3_fills : List Order := [c3_buy, c3_sell]

/-- An environment with no open orders and every other call failing. -/
def env_open_empty : Env := { env_exc with get_open_orders_api := fun _ => .ok [] }

/-- The position metrics of the scenario: fills as above, current price
22000 supplied manually, fee rate the hard-coded 0.1%. -/
def c3_metrics : Metrics :=
  calculate_position_metrics env_open_empty st0 "BTCUSDT" none (some 22000) (some c3_fills)

/-- The value `calculate_position_metrics` actually produces on the
scenario: the netted totals are as claimed, but `avg_buy_price` is the
netted `total_cost / total_qty = 18000`, not the BUY-only 20000. -/
def c3_expected : Metrics :=
  { symbol := "BTCUSDT", current_price := 22000, holdings := 1/2,
    available := 1/2, locked := 0, open_orders := [], avg_buy_price := 18000,
    break_even_price := 18062, total_cost := 9000, current_value := 11000,
    pnl_amount := 2000, pnl_percent := 200/9, is_manual := true,
    mapped_symbol := none, error := none }

theorem c3_metrics_eval : c3_metrics = c3_expected := by
  simp [c3_metrics, c3_expected, calculate_position_metrics, cpm_inner, cpm_fetch,
    cpm_price, c3_fills, c3_buy, c3_sell, env_open_empty, env_exc, st0,
    get_open_orders, get_manual_orders, get_mapped_symbol, lookupMap, position_totals]
  norm_num

/-- C3: the claim says the computed position metrics of the scenario
satisfy avgBuyPrice = 20000 (BUY-only).  The metrics dictionary actually
carries avg_buy_price = 18000: `calculate_position_metrics` divides the
netted cost by the netted quantity instead of restricting to BUY fills. -/
theorem C3_counterexample : c3_metrics.avg_buy_price ≠ 20000 := by
  rw [c3_metrics_eval]
  simp [c3_expected]

/-- C3 (amended): on the scenario fills, `calculate_average_buy_price`
(the BUY-only quotient of calculator.py) gives 20000, and the position
metrics satisfy totalQty = 0.5, totalCost = 9000, pnlAmount = 2000 and
pnlPercent = 200/9 (about 22.22%) as claimed - but the avg_buy_price
field of the metrics is the netted 18000, not the BUY-only 20000. -/
theorem C3_scenario :
    calculate_average_buy_price c3_fills = 20000 ∧
    c3_metrics.holdings = 1/2 ∧
    c3_metrics.total_cost = 9000 ∧
    c3_metrics.avg_buy_price = 18000 ∧
    c3_metrics.pnl_amount = 2000 ∧
    c3_metrics.pnl_percent = 200/9 := by
  refine ⟨?_, ?_, ?_, ?_, ?_, ?_⟩ <;>
    first
    | (rw [c3_metrics_eval]; simp [c3_expected]; try norm_num)
    | (simp [calculate_average_buy_price, c3_fills, c3_buy, c3_sell]; try norm_num)

/-! ## C7 -/

/-- A successful `cpm_inner` result carries no error entry (the success
dictionary of lines 950-965 has no `error` key). -/
theorem cpm_inner_ok_error_none {env : Env} {st : State} {symbol : Sym}
    {inc : Option (List Int)} {mp : Option Rat} {mo : Option (List Order)}
    {m : Metrics} (h : cpm_inner env st symbol inc mp mo = .ok m) :
    m.error = none := by
  unfold cpm_inner at h
  split at h
  · exact Except.noConfusion h
  · dsimp only at h
    split at h
    · exact Except.noConfusion h
    · cases h
      rfl

/-- A successful `ccpm_inner` result carries no error entry. -/
theorem ccpm_inner_ok_error_none {env : Env} {st : State} {asset base : Sym}
    {m : ConsolidatedMetrics} (h : ccpm_inner env st asset base = .ok m) :
    m.error = none := by
  unfold ccpm_inner at h
  split at h
  · exact Except.noConfusion h
  · dsimp only at h
    cases h
    rfl

/-- C7: any exception during metric computation is caught at the boundary
of `calculate_position_metrics` and of
`calculate_consolidated_position_metrics` and converted into the all-zero
metrics dictionary carrying the error; the operations always return a
dictionary, and a returned dictionary carrying an error entry is exactly
the all-zero one. -/
theorem C7_error_boundary (env : Env) (st : State) (symbol : Sym)
    (inc : Option (List Int)) (mp : Option Rat) (mo : Option (List Order))
    (asset base : Sym) (e : PyErr) :
    ((calculate_position_metrics env st symbol inc mp mo).error = some e →
      calculate_position_metrics env st symbol inc mp mo = zero_metrics symbol e) ∧
    ((calculate_consolidated_position_metrics env st asset base).error = some e →
      calculate_consolidated_position_metrics env st asset base
        = zero_consolidated_metrics asset base e) ∧
    (zero_metrics symbol e).current_price = 0 ∧
    (zero_metrics symbol e).holdings = 0 ∧
    (zero_metrics symbol e).available = 0 ∧
    (zero_metrics symbol e).locked = 0 ∧
    (zero_metrics symbol e).avg_buy_price = 0 ∧
    (zero_metrics symbol e).break_even_price = 0 ∧
    (zero_metrics symbol e).total_cost = 0 ∧
    (zero_metrics symbol e).current_value = 0 ∧
    (zero_metrics symbol e).pnl_amount = 0 ∧
    (zero_metrics symbol e).pnl_percent = 0 ∧
    (zero_metrics symbol e).open_orders = [] ∧
    (zero_metrics symbol e).error = some e ∧
    (zero_consolidated_metrics asset base e).current_price = 0 ∧
    (zero_consolidated_metrics asset base e).holdings = 0 ∧
    (zero_consolidated_metrics asset base e).avg_buy_price = 0 ∧
    (zero_consolidated_metrics asset base e).break_even_price = 0 ∧
    (zero_consolidated_metrics asset base e).total_cost = 0 ∧
    (zero_consolidated_metrics asset base e).current_value = 0 ∧
    (zero_consolidated_metrics asset base e).pnl_amount = 0 ∧
    (zero_consolidated_metrics asset base e).pnl_percent = 0 ∧
    (zero_consolidated_metrics asset base e).trading_pairs = [] ∧
    (zero_consolidated_metrics asset base e).order_count = 0 ∧
    (zero_consolidated_metrics asset base e).error = some e := by
  refine ⟨?_, ?_, ?_, ?_, ?_, ?_, ?_, ?_, ?_, ?_, ?_, ?_, ?_, ?_, ?_, ?_, ?_, ?_,
    ?_, ?_, ?_, ?_, ?_, ?_, ?_⟩ <;>
    try rfl
  · intro h
    cases hinner : cpm_inner env st symbol inc mp mo with
    | ok m =>
      have hres : calculate_position_metrics env st symbol inc mp mo = m := by
        unfold calculate_position_metrics
        rw [hinner]
      rw [hres] at h
      exact absurd h (by simp [cpm_inner_ok_error_none hinner])
    | error e2 =>
      have hres : calculate_position_metrics env st symbol inc mp mo
          = zero_metrics symbol e2 := by
        unfold calculate_position_metrics
        rw [hinner]
      rw [hres] at h ⊢
      simp only [zero_metrics, Option.some.injEq] at h
      rw [h]
  · intro h
    cases hinner : ccpm_inner env st asset base with
    | ok m =>
      have hres : calculate_consolidated_position_metrics env st asset base = m := by
        unfold calculate_consolidated_position_metrics
        rw [hinner]
      rw [hres] at h
      exact absurd h (by simp [ccpm_inner_ok_error_none hinner])
    | error e2 =>
      have hres : calculate_consolidated_position_metrics env st asset base
          = zero_consolidated_metrics asset base e2 := by
        unfold calculate_consolidated_position_metrics
        rw [hinner]
      rw [hres] at h ⊢
      simp only [zero_consolidated_metrics, Option.some.injEq] at h
      rw [h]

/-- An environment whose pair-existence probes (limit 1) raise an invalid
symbol error while full order-history queries raise a non-Binance
exception. -/
def env_c7 : Env :=
  { env_exc with get_all_orders := fun _ lim =>
      Except.error (if lim = some 1 then PyErr.api (-1121) else PyErr.exc) }

/-- C7 witness: at an environment whose calls raise, both metric
operations return the all-zero dictionary carrying the exception. -/
theorem C7_error_boundary_witness :
    calculate_position_metrics env_exc st0 "BTCUSDT" none none none
      = zero_metrics "BTCUSDT" .exc ∧
    calculate_consolidated_position_metrics env_c7 st_manual_abc "ABC" "USDT"
      = zero_consolidated_metrics "ABC" "USDT" .exc := by
  constructor
  · exact (C7_error_boundary env_exc st0 "BTCUSDT" none none none "ABC" "USDT" .exc).1
      (by simp [calculate_position_metrics, cpm_inner, cpm_fetch, get_order_history,
        env_exc, st0, get_manual_orders, get_mapped_symbol, lookupMap, zero_metrics])
  · exact (C7_error_boundary env_c7 st_manual_abc "BTCUSDT" none none none "ABC" "USDT" .exc).2.1
      (by simp [calculate_consolidated_position_metrics, ccpm_inner,
        get_consolidated_order_history, consolidate_pairs, all_pairs, discover_pairs,
        quote_priority, pair_probe, add_mapping_pairs, get_order_history,
        env_c7, env_exc, st_manual_abc, st0, get_manual_orders, get_mapped_symbol,
        lookupMap, zero_consolidated_metrics])

/-! ## C8 -/

/-- When no pair probe raises a non-Binance exception, the two discovery
loops agree. -/
theorem discover_pairs_v1_eq (env : Env) (st : State) (asset : Sym) :
    ∀ L : List Sym,
      (∀ q ∈ L, env.get_all_orders (asset ++ q) (some 1) ≠ .error .exc) →
      discover_pairs_v1 env st asset L = .ok (discover_pairs env st asset L) := by
  intro L
  induction L with
  | nil => intro _; rfl
  | cons q rest ih =>
    intro h
    have hq := h q (by simp)
    have hrest : ∀ x ∈ rest, env.get_all_orders (asset ++ x) (some 1) ≠ .error .exc :=
      fun x hx => h x (by simp [hx])
    cases hall : env.get_all_orders (asset ++ q) (some 1) with
    | ok os =>
      simp [discover_pairs_v1, discover_pairs, pair_probe_v1, pair_probe, hall, ih hrest]
    | error e =>
      cases e with
      | api code =>
        simp [discover_pairs_v1, discover_pairs, pair_probe_v1, pair_probe, hall, ih hrest]
      | exc => exact absurd hall hq

/-- C8 (amended): the two implementations of
`get_consolidated_order_history` agree whenever no pair-existence probe
raises a non-Binance exception; they are not equal in general, because the
first catches only `BinanceAPIException` in the probe while the effective
second catches every exception (see the counterexample). -/
theorem C8_equiv (env : Env) (st : State) (asset base_currency : Sym)
    (h : ∀ q ∈ quote_priority, env.get_all_orders (asset ++ q) (some 1) ≠ .error .exc) :
    get_consolidated_order_history_v1 env st asset base_currency
      = get_consolidated_order_history env st asset base_currency := by
  unfold get_consolidated_order_history_v1 get_consolidated_order_history
    all_pairs_v1 all_pairs
  rw [discover_pairs_v1_eq env st asset quote_priority h]

/-- C8 witness: the equivalence applied at an environment whose probes
succeed with zero orders for ABCUSDT and fail with invalid symbol
otherwise. -/
theorem C8_equiv_witness :
    get_consolidated_order_history_v1 env_c4 st_manual_abc "ABC" "USDT"
      = get_consolidated_order_history env_c4 st_manual_abc "ABC" "USDT" :=
  C8_equiv env_c4 st_manual_abc "ABC" "USDT" (by
    intro q hq
    simp only [quote_priority] at hq
    fin_cases hq <;> simp [env_c4, env_exc])

/-- An environment whose probe for ABCUSDT raises a non-Binance exception
while every other order query fails with invalid symbol. -/
def env_c8 : Env :=
  { env_exc with get_all_orders := fun pair lim =>
      if pair = "ABCUSDT" ∧ lim = some 1 then .error .exc else .error (.api (-1121)) }

/-- C8: the claim says the two implementations of
`get_consolidated_order_history` are behaviorally equal for every exchange
response and manual-fill state.  When the ABCUSDT probe raises a
non-Binance exception and manual fills exist for ABCUSDT, the first
implementation propagates the exception while the effective one treats the
pair as present via its manual fills and returns an order list - the
`except BinanceAPIException` against `except Exception` difference is
behavioral, not merely a logging difference. -/
theorem C8_counterexample :
    get_consolidated_order_history_v1 env_c8 st_manual_abc "ABC" "USDT" = .error .exc ∧
    get_consolidated_order_history env_c8 st_manual_abc "ABC" "USDT" ≠ .error .exc ∧
    get_consolidated_order_history_v1 env_c8 st_manual_abc "ABC" "USDT"
      ≠ get_consolidated_order_history env_c8 st_manual_abc "ABC" "USDT" := by
  have h1 : get_consolidated_order_history_v1 env_c8 st_manual_abc "ABC" "USDT"
      = .error .exc := by
    simp [get_consolidated_order_history_v1, all_pairs_v1, discover_pairs_v1,
      pair_probe_v1, quote_priority, env_c8, env_exc]
  have h2 : get_consolidated_order_history env_c8 st_manual_abc "ABC" "USDT"
      ≠ .error .exc := by
    simp [get_consolidated_order_history, consolidate_pairs, all_pairs, discover_pairs,
      pair_probe, quote_priority, env_c8, env_exc, st_manual_abc, st0,
      add_mapping_pairs, get_order_history, get_mapped_symbol, lookupMap,
      get_manual_orders]
  exact ⟨h1, h2, by rw [h1]; exact fun heq => h2 heq.symm⟩

/-! ## C10 -/

/-- When no quote pair of the priority list is present in the price table,
the quote-chain loop values the asset at zero. -/
theorem usd_from_quotes_eq_zero (prices : Sym → Option Rat) (asset : Sym) (total : Rat) :
    ∀ L : List Sym, (∀ q ∈ L, prices (asset ++ q) = none) →
      usd_from_quotes prices asset total L = 0 := by
  intro L
  induction L with
  | nil => intro _; rfl
  | cons q rest ih =>
    intro h
    have hq := h q (by simp)
    simp [usd_from_quotes, hq, ih (fun x hx => h x (by simp [hx]))]

/-- Every returned balance entry comes from a successful `spot_entry` over
some account balance. -/
theorem mem_spot_balances_core {st : State} {prices : Sym → Option Rat}
    {min_value : Rat} {account : List AccountBal} {b : Balance}
    (hb : b ∈ spot_balances_core st prices min_value account) :
    ∃ a, a ∈ account ∧ spot_entry st prices min_value a = some b := by
  unfold spot_balances_core at hb
  rw [List.mem_insertionSort] at hb
  exact List.mem_filterMap.mp hb

/-- What a successful `spot_entry` guarantees about its output. -/
theorem spot_entry_some {st : State} {prices : Sym → Option Rat}
    {min_value : Rat} {a : AccountBal} {b : Balance}
    (h : spot_entry st prices min_value a = some b) :
    0 < b.total ∧ min_value ≤ b.usd_value ∧ b.asset = a.asset ∧
    b.usd_value = (if a.asset ∈ stablecoins then a.free + a.locked
                   else usd_from_quotes prices a.asset (a.free + a.locked) quote_priority) := by
  simp only [spot_entry] at h
  split at h
  · exact Option.noConfusion h
  · rename_i hpos
    by_cases hs : a.asset ∈ stablecoins
    · rw [if_pos hs] at h
      split at h
      · exact Option.noConfusion h
      · rename_i hmin
        cases h
        exact ⟨not_le.mp hpos, not_lt.mp hmin, rfl, by rw [if_pos hs]⟩
    · rw [if_neg hs] at h
      split at h
      · exact Option.noConfusion h
      · rename_i hmin
        cases h
        exact ⟨not_le.mp hpos, not_lt.mp hmin, rfl, by rw [if_neg hs]⟩

/-- C10: `get_spot_balances` keeps exactly the assets with a strictly
positive total balance and a dollar value at or above the threshold,
returns them sorted by descending dollar value, and assigns dollar value
zero to any kept asset that is not a stablecoin and has no quote pair of
the priority list in the price table. -/
theorem C10_filter_sort_value (st : State) (prices : Sym → Option Rat)
    (min_value : Rat) (account : List AccountBal) :
    (∀ b ∈ spot_balances_core st prices min_value account,
       0 < b.total ∧ min_value ≤ b.usd_value) ∧
    List.Sorted balGe (spot_balances_core st prices min_value account) ∧
    (∀ b ∈ spot_balances_core st prices min_value account,
       b.asset ∉ stablecoins →
       (∀ q ∈ quote_priority, prices (b.asset ++ q) = none) →
       b.usd_value = 0) := by
  refine ⟨?_, ?_, ?_⟩
  · intro b hb
    obtain ⟨a, _, he⟩ := mem_spot_balances_core hb
    have h := spot_entry_some he
    exact ⟨h.1, h.2.1⟩
  · unfold spot_balances_core
    exact List.sorted_insertionSort balGe _
  · intro b hb hstable hnone
    obtain ⟨a, _, he⟩ := mem_spot_balances_core hb
    have h := spot_entry_some he
    rw [h.2.2.1] at hstable hnone
    rw [h.2.2.2, if_neg hstable]
    exact usd_from_quotes_eq_zero prices a.asset (a.free + a.locked) quote_priority hnone

def c10_prices : Sym → Option Rat := fun s => if s = "BTCUSDT" then some 50000 else none

def c10_account : List AccountBal := [{ asset := "BTC", free := 1, locked := 0 }]

def c10_balance : Balance :=
  { asset := "BTC", free := 1, locked := 0, total := 1, usd_value := 50000,
    preferred_pair := "" }

/-- C10 witness: the theorem applied to a one-asset account whose BTC
holding is valued through the BTCUSDT pair. -/
theorem C10_filter_sort_value_witness :
    0 < c10_balance.total ∧ (0 : Rat) ≤ c10_balance.usd_value :=
  (C10_filter_sort_value st0 c10_prices 0 c10_account).1 c10_balance (by
    simp [spot_balances_core, spot_entry, c10_prices, c10_account, c10_balance,
      stablecoins, quote_priority, usd_from_quotes, get_preferred_pair, st0,
      List.insertionSort, List.orderedInsert]
    try norm_num)

end BinanceTracker
